import Mathlib

/-!
Verification development for the serde_krds codec (src/ser.rs, src/de.rs,
src/lib.rs, src/error.rs, src/file_formats.rs, src/test.rs).

Shallow embedding conventions:
- Rust byte buffers (`&[u8]`, `Vec<u8>`) are `List Nat` with entries < 256.
- Rust strings are their UTF-8 byte lists (`List Nat`); all string literals
  appearing in the code and fixtures are ASCII, converted by `asciiBytes`.
- Machine integers are `Int`/`Nat` with explicit `% 2^w` where the code casts.
- Fallible Rust code returns `PRes`: `.ok` for `Ok`, `.err` for `Err`, and
  `.crash` for a panic (`unwrap`, `todo!`, `unimplemented!`).
- `ser.rs` in this snapshot refers to enum variants `DataType::UTF`,
  `DataType::ObjectBegin`, `DataType::ObjectEnd` that the snapshot's
  `lib.rs` names `String` (3), `FieldBegin` (-2), `FieldEnd` (-1); the
  numeric tags are the ones of lib.rs's `DataType`, with the i8 tags -2, -1
  appearing on the wire as the u8 bytes 254, 255.
- Floats are never interpreted by the codec (only their big-endian payload
  bytes move), so f32/f64 payloads are kept as raw byte lists.
-/

/-- Wire type tags, from `DataType` in src/lib.rs (identical in main.rs). -/
inductive DataType where
  | Boolean
  | Int
  | Long
  | String
  | Double
  | Short
  | Float
  | Byte
  | Char
  | FieldBegin
  | FieldEnd
deriving DecidableEq

/-- `DataType as u8` (the i8 discriminant reinterpreted as a byte). -/
def DataType.toByte : DataType → Nat
  | .Boolean => 0
  | .Int => 1
  | .Long => 2
  | .String => 3
  | .Double => 4
  | .Short => 5
  | .Float => 6
  | .Byte => 7
  | .Char => 9
  | .FieldBegin => 254
  | .FieldEnd => 255

/-- Interpret an unsigned `w`-bit value as the signed integer the same bits
denote in two's complement (`i8`/`i32`/`i64::from_be_bytes` semantics). -/
def asSigned (w : Nat) (n : Nat) : Int :=
  if n < 2 ^ (w - 1) then (n : Int) else (n : Int) - 2 ^ w

/-- Error type: the variants of `Error` in src/error.rs together with the
variants `Expected`, `Unexpected` and `WontImplement` that src/de.rs
constructs (src/error.rs in this snapshot lags behind de.rs). -/
inductive Error where
  | Message (msg : String)
  | Eof
  | UnknownType (v : Int)
  | BadMagic
  | BadValue
  | TrailingBytes
  | WontImplement
  | Expected (want : DataType) (got : DataType) (pos : Nat)
  | Unexpected (want : Option DataType) (got : DataType) (pos : Nat)
deriving DecidableEq

/-- Outcome of running fallible Rust code: `Ok`, `Err`, or a panic. -/
inductive PRes (α : Type) where
  | ok : α → PRes α
  | err : Error → PRes α
  | crash : PRes α
deriving DecidableEq

/-- Sequencing of panics/errors (the `?` operator plus panic propagation). -/
def PRes.seq {α β : Type} (m : PRes α) (f : α → PRes β) : PRes β :=
  match m with
  | .ok a => f a
  | .err e => .err e
  | .crash => .crash

/-- `TryFrom<u8> for DataType` (src/lib.rs lines 44-73): the byte is cast to
i8 and matched; unknown values give `Error::UnknownType`. -/
def DataType.ofByte (b : Nat) : PRes DataType :=
  if b = 0 then .ok .Boolean
  else if b = 1 then .ok .Int
  else if b = 2 then .ok .Long
  else if b = 3 then .ok .String
  else if b = 4 then .ok .Double
  else if b = 5 then .ok .Short
  else if b = 6 then .ok .Float
  else if b = 7 then .ok .Byte
  else if b = 9 then .ok .Char
  else if b = 254 then .ok .FieldBegin
  else if b = 255 then .ok .FieldEnd
  else .err (.UnknownType (asSigned 8 b))

/-- ASCII string literal to its byte list (every literal in the sources and
fixtures that the claims touch is ASCII). -/
def asciiBytes (s : String) : List Nat := s.data.map Char.toNat

/-- Big-endian bytes of `v`, `n` bytes wide (`to_be_bytes` after reduction
mod 2^(8n)). -/
def beBytes : Nat → Nat → List Nat
  | 0, _ => []
  | n + 1, v => beBytes n (v / 256) ++ [v % 256]

/-- Big-endian byte list back to a Nat (`from_be_bytes`, unsigned view). -/
def beToNat (l : List Nat) : Nat := l.foldl (fun a b => a * 256 + b) 0

/-- Well-formed UTF-8 (what `std::str::from_utf8` accepts): ASCII, and 2-,
3-, 4-byte sequences with the standard continuation and range checks
(overlongs, surrogates and values above U+10FFFF rejected). -/
def utf8Cont (b : Nat) : Bool := 128 ≤ b && b ≤ 191

def utf8Valid : List Nat → Bool
  | [] => true
  | b :: rest =>
    if b < 128 then utf8Valid rest
    else
      match rest with
      | [] => false
      | c1 :: r1 =>
        if 194 ≤ b && b ≤ 223 then utf8Cont c1 && utf8Valid r1
        else
          match r1 with
          | [] => false
          | c2 :: r2 =>
            if b = 224 then (160 ≤ c1 && c1 ≤ 191) && utf8Cont c2 && utf8Valid r2
            else if (225 ≤ b && b ≤ 236) || b = 238 || b = 239 then
              utf8Cont c1 && utf8Cont c2 && utf8Valid r2
            else if b = 237 then (128 ≤ c1 && c1 ≤ 159) && utf8Cont c2 && utf8Valid r2
            else
              match r2 with
              | [] => false
              | c3 :: r3 =>
                if b = 240 then
                  (144 ≤ c1 && c1 ≤ 191) && utf8Cont c2 && utf8Cont c3 && utf8Valid r3
                else if 241 ≤ b && b ≤ 243 then
                  utf8Cont c1 && utf8Cont c2 && utf8Cont c3 && utf8Valid r3
                else if b = 244 then
                  (128 ≤ c1 && c1 ≤ 143) && utf8Cont c2 && utf8Cont c3 && utf8Valid r3
                else false

/-! ## Serializer (src/ser.rs) -/

/-- The 17-byte prologue `MAGIC` of src/lib.rs lines 23-24: the 8-byte
identifier then the LONG tag `02` and the 8 bytes of `1u64`. -/
def magic : List Nat := [0, 0, 0, 0, 0, 26, 177, 38, 2, 0, 0, 0, 0, 0, 0, 0, 1]

/-- `Serializer::write_str` (ser.rs lines 37-47): empty string gives the
three zero bytes `[0u8; 3]`; otherwise presence byte 0, the length as a
big-endian u16 (`string.len() as u16` truncates), then the bytes. -/
def write_str (s : List Nat) : List Nat :=
  if s = [] then [0, 0, 0]
  else 0 :: beBytes 2 (s.length % 65536) ++ s

/-- `serialize_bool` (ser.rs lines 82-86). -/
def serialize_bool (v : Bool) : List Nat := [0, if v then 1 else 0]

/-- `serialize_i8` (ser.rs lines 92-95): Byte tag then `v as u8`. -/
def serialize_i8 (v : Int) : List Nat := [7, (v % 256).toNat]

/-- `serialize_i16` (ser.rs lines 97-101). -/
def serialize_i16 (v : Int) : List Nat := 5 :: beBytes 2 (v % 2 ^ 16).toNat

/-- `serialize_i32` (ser.rs lines 103-107). -/
def serialize_i32 (v : Int) : List Nat := 1 :: beBytes 4 (v % 2 ^ 32).toNat

/-- `serialize_i64` (ser.rs lines 111-115). -/
def serialize_i64 (v : Int) : List Nat := 2 :: beBytes 8 (v % 2 ^ 64).toNat

/-- `serialize_str` (ser.rs lines 156-162): the String tag (the draft's
`DataType::UTF`, wire value 3) then the `write_str` body. -/
def serialize_str (s : List Nat) : List Nat := 3 :: write_str s

/-- `serialize_none` (ser.rs lines 176-178) writes nothing;
`serialize_some` (lines 185-190) writes just the inner value. -/
def serialize_opt (o : Option (List Nat)) : List Nat :=
  match o with
  | none => []
  | some inner => inner

/-- `serialize_newtype_struct` (ser.rs lines 210-218): ObjectBegin (254),
the name body, the inner value, ObjectEnd (255). -/
def serialize_newtype_struct (name inner : List Nat) : List Nat :=
  254 :: write_str name ++ inner ++ [255]

/-- `serialize_seq` + `SerializeSeq` (ser.rs lines 247-252 and 300-314):
ObjectBegin, the literal name `saved.avl.interval.tree`, an INT count, the
elements, then ObjectEnd from `end()`. -/
def serialize_seq (elems : List (List Nat)) : List Nat :=
  254 :: write_str (asciiBytes "saved.avl.interval.tree")
    ++ serialize_i32 (Int.ofNat elems.length) ++ elems.flatten ++ [255]

/-- `serialize_tuple_struct` + `SerializeTupleStruct` (ser.rs lines 258-264
and 332-346): the fields are appended with no framing at all. -/
def serialize_tuple_struct (fields : List (List Nat)) : List Nat := fields.flatten

/-- `serialize_map` + `SerializeMap` (ser.rs lines 278-281 and 364-387):
INT count; per entry ObjectBegin, the stringified key as a string body
(`serialize_key`), the value and ObjectEnd (`serialize_value`); one more
ObjectEnd from `end()`. Keys are already stringified by `MapKeySerializer`. -/
def serialize_map (entries : List (List Nat × List Nat)) : List Nat :=
  serialize_i32 (Int.ofNat entries.length)
    ++ (entries.map (fun kv => 254 :: write_str kv.1 ++ kv.2 ++ [255])).flatten
    ++ [255]

/-- `MapKeySerializer::serialize_i32` (ser.rs lines 481-483): the decimal
string of the value. -/
def map_key_i32 (v : Int) : List Nat := asciiBytes (toString v)

def is_ascii_digit (b : Nat) : Bool := 48 ≤ b && b ≤ 57

/-- Digit-string to number, for `key.parse::<i32>()` on all-digit keys. -/
def digitsToNat (s : List Nat) : Nat := s.foldl (fun a b => a * 10 + (b - 48)) 0

/-- `"…".parse::<i32>()` on a string already known to be all ASCII digits:
fails (empty or overflow), else the value. -/
def parse_i32_digits (s : List Nat) : Option Nat :=
  if s = [] then none
  else if digitsToNat s < 2 ^ 31 then some (digitsToNat s) else none

/-- `SerializeStruct::serialize_field` (ser.rs lines 389-412): a key made
only of ASCII digits is parsed to i32 (`unwrap` panics on failure) and
serialized as an INT value; any other key is serialized as a string
(`serialize_str`); then the value bytes follow. No Field markers are
emitted by this impl, and `end()` writes nothing. -/
def serialize_field (key value : List Nat) : PRes (List Nat) :=
  if key.all is_ascii_digit then
    match parse_i32_digits key with
    | some n => .ok (serialize_i32 (Int.ofNat n) ++ value)
    | none => .crash
  else .ok (serialize_str key ++ value)

/-- `serialize_struct` (ser.rs lines 283-286) then the two fields of
`SimpleStruct` (src/test.rs lines 158-162) in declaration order. -/
def ser_simple_struct (field1 : Int) (field2 : List Nat) : PRes (List Nat) :=
  PRes.seq (serialize_field (asciiBytes "field_1") (serialize_i32 field1)) fun b1 =>
    PRes.seq (serialize_field (asciiBytes "field_2") (serialize_str field2)) fun b2 =>
      .ok (serialize_i32 2 ++ b1 ++ b2)

/-- `to_bytevec` (ser.rs lines 23-34): starts from MAGIC, writes one more
`DataType::Long as u8` byte and `1i64.to_be_bytes()`, then the value. -/
def to_bytevec (value : List Nat) : List Nat :=
  magic ++ 2 :: beBytes 8 1 ++ value

/-! ## Deserializer (src/de.rs) -/

/-- `Deserializer` (de.rs lines 13-17): remaining input and byte counter. -/
structure Deserializer where
  input : List Nat
  counter : Nat
deriving DecidableEq

/-- A deserializer step: state in, `PRes` of value and state out. -/
def DParse (α : Type) := Deserializer → PRes (α × Deserializer)

/-- Sequencing of deserializer steps (`?` plus panic propagation). -/
def dseq {α β : Type} (m : DParse α) (f : α → DParse β) : DParse β :=
  fun d =>
    match m d with
    | .ok (a, d1) => f a d1
    | .err e => .err e
    | .crash => .crash

def dpure {α : Type} (a : α) : DParse α := fun d => .ok (a, d)

def dthrow {α : Type} (e : Error) : DParse α := fun _ => .err e

def dcrash {α : Type} : DParse α := fun _ => .crash

/-- `peek_byte` (de.rs lines 58-61). -/
def peek_byte : DParse Nat := fun d =>
  match d.input with
  | [] => .err .Eof
  | b :: _ => .ok (b, d)

/-- `consume_unchecked` (de.rs lines 53-56). -/
def consume_unchecked (n : Nat) : DParse Unit := fun d =>
  .ok ((), ⟨d.input.drop n, d.counter + n⟩)

/-- `next_byte` (de.rs lines 63-67). -/
def next_byte : DParse Nat :=
  dseq peek_byte fun b => dseq (consume_unchecked 1) fun _ => dpure b

/-- `get_array`/`get_slice` (de.rs lines 69-85): `Eof` if fewer than `n`
bytes remain, else the first `n` bytes. -/
def get_slice (n : Nat) : DParse (List Nat) := fun d =>
  if d.input.length < n then .err .Eof
  else .ok (d.input.take n, ⟨d.input.drop n, d.counter + n⟩)

/-- `parse_string` (de.rs lines 87-94): presence byte; any value other than
1 means a 2-byte big-endian length then that many bytes, which are passed
to `str::from_utf8(...).unwrap()` — a panic when they are not UTF-8. -/
def parse_string : DParse (List Nat) :=
  dseq next_byte fun b =>
    if b = 1 then dpure []
    else
      dseq (get_slice 2) fun lb =>
        dseq (get_slice (beToNat lb)) fun s =>
          if utf8Valid s then dpure s else dcrash

/-- `parse_i32` (de.rs lines 96-99). -/
def parse_i32 : DParse Int :=
  dseq (get_slice 4) fun bs => dpure (asSigned 32 (beToNat bs))

/-- `next_datatype` (de.rs lines 101-103). -/
def next_datatype : DParse DataType :=
  dseq next_byte fun b =>
    match DataType.ofByte b with
    | .ok dt => dpure dt
    | .err e => dthrow e
    | .crash => dcrash

/-- `parse_type` (de.rs lines 105-116): consume one tag; `Expected` with
the post-consumption counter if it is not the wanted one. -/
def parse_type (want : DataType) : DParse Unit :=
  dseq next_datatype fun got =>
    if got = want then dpure ()
    else fun d => .err (.Expected want got d.counter)

/-- `peek_next_datatype` (de.rs lines 118-121). -/
def peek_next_datatype : DParse DataType :=
  dseq peek_byte fun b =>
    match DataType.ofByte b with
    | .ok dt => dpure dt
    | .err e => dthrow e
    | .crash => dcrash

/-- `deserialize_bool` (de.rs lines 144-150). -/
def de_bool : DParse Bool :=
  dseq (parse_type .Boolean) fun _ =>
    dseq next_byte fun b => dpure (b ≠ 0)

/-- `deserialize_i8` (de.rs lines 152-158): value as signed byte. -/
def de_i8 : DParse Int :=
  dseq (parse_type .Byte) fun _ =>
    dseq next_byte fun b => dpure (asSigned 8 b)

/-- `deserialize_i16` (de.rs lines 160-166). -/
def de_i16 : DParse Int :=
  dseq (parse_type .Short) fun _ =>
    dseq (get_slice 2) fun bs => dpure (asSigned 16 (beToNat bs))

/-- `deserialize_i32` (de.rs lines 168-174). -/
def de_i32 : DParse Int :=
  dseq (parse_type .Int) fun _ => parse_i32

/-- `deserialize_i64` (de.rs lines 176-182). -/
def de_i64 : DParse Int :=
  dseq (parse_type .Long) fun _ =>
    dseq (get_slice 8) fun bs => dpure (asSigned 64 (beToNat bs))

/-- `deserialize_f32` (de.rs lines 184-190); payload kept as raw bytes. -/
def de_f32 : DParse (List Nat) :=
  dseq (parse_type .Float) fun _ => get_slice 4

/-- `deserialize_f64` (de.rs lines 192-198); payload kept as raw bytes. -/
def de_f64 : DParse (List Nat) :=
  dseq (parse_type .Double) fun _ => get_slice 8

/-- `deserialize_char` (de.rs lines 200-206): one byte. -/
def de_char : DParse Nat :=
  dseq (parse_type .Char) fun _ => next_byte

/-- `deserialize_string` (de.rs lines 208-214). -/
def de_string : DParse (List Nat) :=
  dseq (parse_type .String) fun _ => parse_string

/-- `deserialize_option` (de.rs lines 269-279): peek; FieldEnd means
`None`, anything else deserializes the inner value as `Some`. -/
def de_option {α : Type} (p : DParse α) : DParse (Option α) :=
  dseq peek_next_datatype fun dt =>
    if dt = .FieldEnd then dpure none
    else dseq p fun a => dpure (some a)

/-- `deserialize_newtype_struct` (de.rs lines 281-290): FieldBegin, the
name body (ignored), the inner value, FieldEnd. -/
def de_newtype_struct {α : Type} (p : DParse α) : DParse α :=
  dseq (parse_type .FieldBegin) fun _ =>
    dseq parse_string fun _ =>
      dseq p fun v =>
        dseq (parse_type .FieldEnd) fun _ => dpure v

/-- `i32 as usize` on 64-bit (sign extension then reinterpretation). -/
def i32_as_usize (v : Int) : Nat := (v % 2 ^ 64).toNat

/-- `LengthBased` as `SeqAccess` (de.rs lines 489-504): exactly `n`
elements, each by the seed. -/
def readN {α : Type} (p : DParse α) : Nat → DParse (List α)
  | 0 => dpure []
  | n + 1 => dseq p fun x => dseq (readN p n) fun xs => dpure (x :: xs)

/-- `deserialize_seq` (de.rs lines 292-300): INT tag, count, then the
`LengthBased` element loop. -/
def de_seq {α : Type} (p : DParse α) : DParse (List α) :=
  dseq (parse_type .Int) fun _ =>
    dseq parse_i32 fun n => readN p (i32_as_usize n)

/-- `deserialize_map` (de.rs lines 322-329) with `LengthBased` as
`MapAccess` (lines 462-487): INT count then `count` (key, value) pairs,
each deserialized directly with no framing. -/
def de_map {κ υ : Type} (pk : DParse κ) (pv : DParse υ) : DParse (List (κ × υ)) :=
  dseq (parse_type .Int) fun _ =>
    dseq parse_i32 fun n =>
      readN (dseq pk fun k => dseq pv fun v => dpure (k, v)) (i32_as_usize n)

/-- `Terminated::next_element_seed` stop test (de.rs lines 529-537): a
peeked FieldEnd ends the sequence only when `done == total` (or no total);
`done` is never incremented by the source, so callers pass the constant. -/
def term_stop (total : Option Nat) (done : Nat) : Bool :=
  match total with
  | some t => done == t
  | none => true

/-- One `Terminated` element (de.rs lines 522-541). -/
def terminated_elem {α : Type} (total : Option Nat) (done : Nat) (p : DParse α) :
    DParse (Option α) :=
  dseq peek_next_datatype fun dt =>
    if dt = .FieldEnd && term_stop total done then dpure none
    else dseq p fun a => dpure (some a)

/-- `deserialize_tuple_struct` (de.rs lines 309-320) for a two-field tuple
struct, combined with the derived visitor: two `Terminated` elements with
`total = Some 2` and the never-incremented `done = 0`; a `None` element is
serde's invalid-length error. -/
def de_tuple_struct2 {α β : Type} (pa : DParse α) (pb : DParse β) : DParse (α × β) :=
  dseq (terminated_elem (some 2) 0 pa) fun oa =>
    match oa with
    | none => dthrow (.Message "invalid length 0")
    | some a =>
      dseq (terminated_elem (some 2) 0 pb) fun ob =>
        match ob with
        | none => dthrow (.Message "invalid length 1")
        | some b => dpure (a, b)

/-- `deserialize_any`/`deserialize_ignored_any` (de.rs lines 126-142,
380-385): dispatch on the peeked tag; Field markers are `WontImplement`.
The value is discarded (serde `IgnoredAny`). -/
def de_ignored_any : DParse Unit :=
  dseq peek_next_datatype fun dt =>
    match dt with
    | .Boolean => dseq de_bool fun _ => dpure ()
    | .Int => dseq de_i32 fun _ => dpure ()
    | .Long => dseq de_i64 fun _ => dpure ()
    | .String => dseq de_string fun _ => dpure ()
    | .Double => dseq de_f64 fun _ => dpure ()
    | .Short => dseq de_i16 fun _ => dpure ()
    | .Float => dseq de_f32 fun _ => dpure ()
    | .Byte => dseq de_i8 fun _ => dpure ()
    | .Char => dseq de_char fun _ => dpure ()
    | _ => dthrow .WontImplement

/-- One `LengthBasedStruct::next_key_seed` step before the total is
reached (de.rs lines 421-436): FieldEnd first when an entry was already
read, then unconditionally FieldBegin and the identifier string body. -/
def struct_next_key (doneGt0 : Bool) : DParse (List Nat) :=
  dseq (if doneGt0 then parse_type .FieldEnd else dpure ()) fun _ =>
    dseq (parse_type .FieldBegin) fun _ => parse_string

/-- The derived visitor loop for `SimpleStruct` (src/test.rs lines
158-162) over `LengthBasedStruct` (de.rs lines 406-448): `remaining`
counts down from the INT-prefixed total; each round reads a key with
`struct_next_key` and dispatches on the field name; after the last entry
one trailing FieldEnd is consumed; missing or duplicate fields are serde
errors. -/
def simple_struct_loop :
    Nat → Bool → Option Int → Option (List Nat) → DParse (Int × List Nat)
  | 0, doneGt0, of1, of2 =>
    dseq (if doneGt0 then parse_type .FieldEnd else dpure ()) fun _ =>
      match of1, of2 with
      | some a, some b => dpure (a, b)
      | none, _ => dthrow (.Message "missing field field_1")
      | _, none => dthrow (.Message "missing field field_2")
  | r + 1, doneGt0, of1, of2 =>
    dseq (struct_next_key doneGt0) fun name =>
      if name = asciiBytes "field_1" then
        match of1 with
        | some _ => dthrow (.Message "duplicate field field_1")
        | none => dseq de_i32 fun v => simple_struct_loop r true (some v) of2
      else if name = asciiBytes "field_2" then
        match of2 with
        | some _ => dthrow (.Message "duplicate field field_2")
        | none => dseq de_string fun s => simple_struct_loop r true of1 (some s)
      else dseq de_ignored_any fun _ => simple_struct_loop r true of1 of2

/-- `deserialize_struct` (de.rs lines 331-343) for `SimpleStruct`: INT
tag, count, then the `LengthBasedStruct` field loop. -/
def de_simple_struct : DParse (Int × List Nat) :=
  dseq (parse_type .Int) fun _ =>
    dseq parse_i32 fun n => simple_struct_loop (i32_as_usize n) false none none

/-- `NoteType` (src/file_formats.rs lines 152-160). -/
inductive NoteType where
  | Bookmark
  | Highlight
  | Typed
  | Handwritten
  | Sticky
deriving DecidableEq

/-- The `#[repr(i32)]` discriminants of `NoteType`. -/
def NoteType.toI32 : NoteType → Int
  | .Bookmark => 0
  | .Highlight => 1
  | .Typed => 2
  | .Handwritten => 10
  | .Sticky => 11

/-- `TryFrom<i32> for NoteType` (file_formats.rs lines 162-175). -/
def NoteType.tryFromI32 (v : Int) : PRes NoteType :=
  if v = 0 then .ok .Bookmark
  else if v = 1 then .ok .Highlight
  else if v = 2 then .ok .Typed
  else if v = 10 then .ok .Handwritten
  else if v = 11 then .ok .Sticky
  else .err .BadValue

/-- `Deserialize for NoteType` (file_formats.rs lines 186-214): an i32,
mapped through `TryFrom` with a custom message on failure. -/
def de_note_type : DParse NoteType :=
  dseq de_i32 fun v =>
    match NoteType.tryFromI32 v with
    | .ok nt => dpure nt
    | .err _ => dthrow (.Message "i32 out of range: -2..9")
    | .crash => dcrash

/-- `from_bytes` (de.rs lines 25-49): inputs shorter than `MAGIC.len() + 5`
are `Eof` before the magic is looked at; a 17-byte prefix differing from
MAGIC is `BadMagic`; otherwise the value is deserialized starting at
counter 17 and leftover input is `TrailingBytes`. -/
def from_bytes {α : Type} (p : DParse α) (b : List Nat) : PRes α :=
  if b.length < magic.length + 5 then .err .Eof
  else if b.take magic.length ≠ magic then .err .BadMagic
  else
    match p ⟨b.drop magic.length, magic.length⟩ with
    | .ok (v, d) => if d.input = [] then .ok v else .err .TrailingBytes
    | .err e => .err e
    | .crash => .crash

/-! ## Fixtures (src/test.rs) -/

/-- `str_to_bytes` (test.rs lines 236-243): the byte layout the test suite
expects for a non-empty string. -/
def str_to_bytes (s : List Nat) : List Nat :=
  3 :: 0 :: beBytes 2 s.length ++ s

/-- The `simple_struct` fixture bytes (test.rs lines 164-188). -/
def fixture_simple_struct : List Nat :=
  [1, 0, 0, 0, 2]
    ++ [254, 0, 0, 7] ++ asciiBytes "field_1" ++ [1, 0, 0, 4, 210]
    ++ [255, 254, 0, 0, 7] ++ asciiBytes "field_2"
    ++ str_to_bytes (asciiBytes "testing stuff") ++ [255]

/-- The `test_map` fixture bytes (test.rs lines 245-269): INT count 3 then
three (INT-tagged NoteType key, STRING-tagged value) pairs in insertion
order, with no Field framing. -/
def fixture_map : List Nat :=
  [1, 0, 0, 0, 3]
    ++ [1, 0, 0, 0, 0] ++ str_to_bytes (asciiBytes "testing string")
    ++ [1, 0, 0, 0, 1] ++ str_to_bytes (asciiBytes "this is neat")
    ++ [1, 0, 0, 0, 10] ++ str_to_bytes (asciiBytes "TEST YOUR CODE!")

/-- The `test_vec_int` fixture bytes for the empty prefix case and the
expected empty-sequence encoding (spec §8, test.rs lines 110-118 shape). -/
def fixture_empty_seq : List Nat := [1, 0, 0, 0, 0]

/-! ## Draft encoder outputs (what src/ser.rs actually produces) -/

/-- Byte output of the snapshot's encoder for
`SimpleStruct{field_1: 1234, field_2: "testing stuff"}`: INT count 2, then
each field as a STRING-tagged name followed by the value, with no
FieldBegin/FieldEnd markers. -/
def draft_simple_struct : List Nat :=
  [1, 0, 0, 0, 2]
    ++ [3, 0, 0, 7] ++ asciiBytes "field_1" ++ [1, 0, 0, 4, 210]
    ++ [3, 0, 0, 7] ++ asciiBytes "field_2"
    ++ [3, 0, 0, 13] ++ asciiBytes "testing stuff"

/-- Byte output of the snapshot's encoder for the empty sequence: the
interval-tree record wrapping an INT count of 0. -/
def draft_empty_seq : List Nat :=
  [254, 0, 0, 23] ++ asciiBytes "saved.avl.interval.tree" ++ [1, 0, 0, 0, 0, 255]

/-- Byte output of the snapshot's encoder for the three-entry `NoteType`
map of `test_map`: INT count 3, then per entry FieldBegin, the key
stringified to decimal as a string body, the STRING-tagged value and a
FieldEnd, plus a final trailing FieldEnd. -/
def draft_note_map : List Nat :=
  [1, 0, 0, 0, 3]
    ++ [254, 0, 0, 1, 48, 3, 0, 0, 14] ++ asciiBytes "testing string" ++ [255]
    ++ [254, 0, 0, 1, 49, 3, 0, 0, 12] ++ asciiBytes "this is neat" ++ [255]
    ++ [254, 0, 0, 2, 49, 48, 3, 0, 0, 15] ++ asciiBytes "TEST YOUR CODE!" ++ [255]
    ++ [255]

/-! ## Helper lemmas -/

theorem take_len_append (l1 l2 : List Nat) : (l1 ++ l2).take l1.length = l1 := by
  induction l1 with
  | nil => rfl
  | cons a t ih => simp [List.take, ih]

theorem drop_len_append (l1 l2 : List Nat) : (l1 ++ l2).drop l1.length = l2 := by
  induction l1 with
  | nil => rfl
  | cons a t ih => simp [List.drop, ih]

theorem get_slice_append (l1 l2 : List Nat) (c : Nat) :
    get_slice l1.length ⟨l1 ++ l2, c⟩ = .ok (l1, ⟨l2, c + l1.length⟩) := by
  unfold get_slice
  rw [if_neg]
  · rw [take_len_append, drop_len_append]
  · simp

theorem beToNat_two (a b : Nat) : beToNat [a, b] = a * 256 + b := by
  simp [beToNat, List.foldl]

/-! ## Claim theorems -/

/-- Claim C1 (code bug): the round-trip law `decode(encode(V)) = V` with
`encode = to_bytevec` and `decode = from_bytes` fails already at the
boolean value `true`: `to_bytevec` writes a second LONG-tagged 1 after the
17-byte MAGIC, so `from_bytes` meets a Long tag where the value should
start and errors instead of returning `true`. -/
theorem c1_roundtrip_fails_at_bool :
    from_bytes de_bool (to_bytevec (serialize_bool true)) =
      .err (.Expected .Boolean .Long 18) := by decide

/-- Claim C2 (code bug): the encoder does not emit exactly the 17 prologue
bytes: `to_bytevec` emits MAGIC (which already ends in the LONG-tagged 1)
and then a second LONG-tagged 1, 26 bytes in all, before the value. The
decoder accepts only the 17-byte MAGIC prefix, returns BadMagic on a
differing 17-byte prefix of a long-enough input, and Eof (not BadMagic)
on inputs shorter than 22 bytes. -/
theorem c2_prologue_and_magic_check :
    to_bytevec [] = magic ++ [2, 0, 0, 0, 0, 0, 0, 0, 1]
      ∧ (to_bytevec []).length = 26
      ∧ magic.length = 17
      ∧ from_bytes de_bool (List.replicate 21 1) = .err .Eof
      ∧ from_bytes de_bool (255 :: List.replicate 21 0) = .err .BadMagic := by decide

/-- Claim C3 (code bug): for `SimpleStruct{field_1: 1234, field_2:
"testing stuff"}` the encoder emits the INT count but then STRING-tagged
field names with no FieldBegin/FieldEnd framing (`draft_simple_struct`),
which differs from the test fixture and which the decoder rejects at the
first field name; the decoder does consume exactly the claimed framing, as
its successful decode of the fixture bytes shows. -/
theorem c3_simple_struct_encoding_bug :
    ser_simple_struct 1234 (asciiBytes "testing stuff") = .ok draft_simple_struct
      ∧ draft_simple_struct ≠ fixture_simple_struct
      ∧ de_simple_struct ⟨draft_simple_struct, 0⟩ =
          .err (.Expected .FieldBegin .String 6)
      ∧ de_simple_struct ⟨fixture_simple_struct, 0⟩ =
          .ok ((1234, asciiBytes "testing stuff"), ⟨[], 51⟩) := by decide

/-- Claim C4 (code bug): the encoder does not write INT tag + count + the
elements for a sequence: it wraps every sequence in the
`saved.avl.interval.tree` record, so the empty sequence encodes as the
33-byte `draft_empty_seq` instead of `01 00 00 00 00`; the decoder expects
the claimed layout (it decodes `01 00 00 00 00` as the empty sequence and
rejects the encoder's own output at the first byte). -/
theorem c4_seq_encoding_bug :
    serialize_seq [] = draft_empty_seq
      ∧ draft_empty_seq ≠ fixture_empty_seq
      ∧ de_seq de_i32 ⟨fixture_empty_seq, 0⟩ = .ok ([], ⟨[], 5⟩)
      ∧ de_seq de_i32 ⟨draft_empty_seq, 0⟩ = .err (.Expected .Int .FieldBegin 1) := by
  decide

set_option maxHeartbeats 2000000 in
/-- Claim C5 (code bug): for the integer-backed `NoteType` map of
`test_map` the encoder emits FieldBegin/decimal-string-key/FieldEnd
framing around every entry plus a trailing FieldEnd (`draft_note_map`),
not the claimed INT-tagged keys without framing; the test fixture has the
claimed layout, which the decoder accepts and maps back to `NoteType`
keys, while the decoder rejects the encoder's own output at the first
key. -/
theorem c5_map_encoding_bug :
    serialize_map
        [(map_key_i32 0, serialize_str (asciiBytes "testing string")),
         (map_key_i32 1, serialize_str (asciiBytes "this is neat")),
         (map_key_i32 10, serialize_str (asciiBytes "TEST YOUR CODE!"))] =
      draft_note_map
      ∧ draft_note_map ≠ fixture_map
      ∧ de_map de_note_type de_string ⟨fixture_map, 0⟩ =
          .ok ([(.Bookmark, asciiBytes "testing string"),
                (.Highlight, asciiBytes "this is neat"),
                (.Handwritten, asciiBytes "TEST YOUR CODE!")], ⟨[], 73⟩)
      ∧ de_map de_note_type de_string ⟨draft_note_map, 0⟩ =
          .err (.Expected .Int .FieldBegin 6) := by decide

/-- Claim C6 (code bug): the encoder writes the empty string as the four
bytes `03 00 00 00` (presence 0, length 0), not the two bytes `03 01` the
claim, the `empty_string` fixture and the byte-exact round-trip tests
require; the non-empty layout (tag, presence 0, 2-byte length, bytes)
matches the claim. -/
theorem c6_empty_string_encoding_bug :
    serialize_str [] = [3, 0, 0, 0]
      ∧ [3, 0, 0, 0] ≠ [3, 1]
      ∧ serialize_str (asciiBytes "testing stuff") =
          [3, 0, 0, 13] ++ asciiBytes "testing stuff"
      ∧ parse_string ⟨[1], 0⟩ = .ok ([], ⟨[], 1⟩) := by decide

theorem dseq_ok {α β : Type} (m : DParse α) (f : α → DParse β) (d d1 : Deserializer)
    (a : α) (h : m d = .ok (a, d1)) : dseq m f d = f a d1 := by
  unfold dseq
  rw [h]

theorem get_slice_cons2 (a b : Nat) (t : List Nat) (c : Nat) :
    get_slice 2 ⟨a :: b :: t, c⟩ = .ok ([a, b], ⟨t, c + 2⟩) := by
  unfold get_slice
  rw [if_neg]
  · rfl
  · simp

/-- Claim C7 counterexample: the decoder does not consume INT-tagged
struct keys: the `LengthBasedStruct` key step on input whose next tag is
INT (`01 00 00 00 00`) fails with `Expected FieldBegin`, instead of
consuming the key `0` and matching it back to a field name. -/
theorem c7_counterexample_int_key_rejected :
    struct_next_key false ⟨[1, 0, 0, 0, 0], 0⟩ =
      .err (.Expected .FieldBegin .Int 1) := by decide

/-- Claim C7 as amended: for every struct field whose non-empty name
consists only of decimal digits and parses into an i32, the encoder emits
the name as an INT-tagged value followed by the field value with no
FieldBegin/FieldEnd markers; on decode, however, `LengthBasedStruct`
unconditionally expects FieldBegin and a string name, so an INT-tagged
key always fails with `Expected FieldBegin`. -/
theorem c7_digit_keys_encode_as_int :
    (∀ key value : List Nat, key ≠ [] → key.all is_ascii_digit = true →
        digitsToNat key < 2 ^ 31 →
        serialize_field key value =
          .ok (serialize_i32 (Int.ofNat (digitsToNat key)) ++ value))
      ∧ (∀ (rest : List Nat) (c : Nat),
        struct_next_key false ⟨1 :: rest, c⟩ =
          .err (.Expected .FieldBegin .Int (c + 1))) := by
  constructor
  · intro key value h1 h2 h3
    simp only [serialize_field, parse_i32_digits, h2, if_neg h1, if_true]
    rw [if_pos h3]
  · intro rest c
    rfl

/-- Claim C7 witness: the amended theorem at the concrete digit key `"10"`
and the concrete INT-tagged key bytes. -/
theorem c7_digit_keys_encode_as_int_witness :
    serialize_field [49, 48] [] =
        .ok (serialize_i32 (Int.ofNat (digitsToNat [49, 48])) ++ [])
      ∧ struct_next_key false ⟨[1, 0, 0, 0, 0], 0⟩ =
        .err (.Expected .FieldBegin .Int 1) :=
  ⟨c7_digit_keys_encode_as_int.1 [49, 48] [] (by decide) (by decide) (by decide),
   c7_digit_keys_encode_as_int.2 [0, 0, 0, 0] 0⟩

/-- Claim C8 counterexample: a tuple struct with absent optionals at both
positions — in particular an absent optional at the non-terminal first
position — does round-trip: serializing `(none, none)` and deserializing
returns `(none, none)` again, contradicting the claim that such a value
never round-trips. -/
theorem c8_counterexample_absent_absent_roundtrips :
    de_newtype_struct (de_tuple_struct2 (de_option de_i64) (de_option de_i64))
        ⟨serialize_newtype_struct (asciiBytes "tup")
            (serialize_tuple_struct [serialize_opt none, serialize_opt none]), 0⟩ =
      .ok (((none : Option Int), (none : Option Int)), ⟨[], 8⟩) := by decide

set_option maxRecDepth 4000 in
/-- Claim C8 as amended: a tuple struct whose only optional field is
terminal round-trips whether the optional is absent or present; with an
absent optional at the non-terminal position, deserialization fails with
a tag mismatch when a required field follows, and yields a different
value when a present optional follows; it can still return the original
value when every later field is also absent. -/
theorem c8_tuple_struct_optionals :
    de_newtype_struct (de_tuple_struct2 de_i64 (de_option de_i64))
        ⟨serialize_newtype_struct (asciiBytes "tup")
            (serialize_tuple_struct [serialize_i64 5, serialize_opt none]), 0⟩ =
      .ok ((5, (none : Option Int)), ⟨[], 17⟩)
      ∧ de_newtype_struct (de_tuple_struct2 de_i64 (de_option de_i64))
          ⟨serialize_newtype_struct (asciiBytes "tup")
              (serialize_tuple_struct
                [serialize_i64 5, serialize_opt (some (serialize_i64 7))]), 0⟩ =
        .ok ((5, some (7 : Int)), ⟨[], 26⟩)
      ∧ de_newtype_struct (de_tuple_struct2 (de_option de_i64) de_i64)
          ⟨serialize_newtype_struct (asciiBytes "tup")
              (serialize_tuple_struct [serialize_opt none, serialize_i64 5]), 0⟩ =
        .err (.Expected .Long .FieldEnd 17)
      ∧ de_newtype_struct (de_tuple_struct2 (de_option de_i64) (de_option de_i64))
          ⟨serialize_newtype_struct (asciiBytes "tup")
              (serialize_tuple_struct
                [serialize_opt none, serialize_opt (some (serialize_i64 5))]), 0⟩ =
        .ok ((some (5 : Int), (none : Option Int)), ⟨[], 17⟩)
      ∧ (some (5 : Int), (none : Option Int)) ≠ ((none : Option Int), some (5 : Int)) := by
  decide

/-- Claim C9 counterexample: a STRING body whose length-prefixed bytes are
not valid UTF-8 (presence 0, length 1, the lone continuation byte 0xFF)
makes `parse_string` panic (`str::from_utf8(...).unwrap()`); it does not
return an error — the `Error` type has no InvalidUtf8 variant at all. -/
theorem c9_counterexample_invalid_utf8_panics :
    parse_string ⟨[0, 0, 1, 255], 0⟩ = .crash := by decide

/-- Claim C9 as amended: over every string body (presence 0, a 2-byte
big-endian length, that many bytes), `parse_string` returns the bytes when
they are valid UTF-8 and panics otherwise; it never returns an
InvalidUtf8 error, since no such variant exists. -/
theorem c9_parse_string_utf8 (hi lo : Nat) (s rest : List Nat) (c : Nat)
    (hlen : hi * 256 + lo = s.length) :
    parse_string ⟨0 :: hi :: lo :: (s ++ rest), c⟩ =
      if utf8Valid s then .ok (s, ⟨rest, c + 3 + s.length⟩) else .crash := by
  have e1 : next_byte ⟨0 :: hi :: lo :: (s ++ rest), c⟩ =
      .ok (0, ⟨hi :: lo :: (s ++ rest), c + 1⟩) := rfl
  unfold parse_string
  rw [dseq_ok _ _ _ _ _ e1]
  rw [if_neg (by decide)]
  rw [dseq_ok _ _ _ _ _ (get_slice_cons2 hi lo (s ++ rest) (c + 1))]
  show dseq (get_slice (beToNat [hi, lo])) _ ⟨s ++ rest, c + 1 + 2⟩ = _
  have e2 : beToNat [hi, lo] = s.length := by
    rw [beToNat_two]
    omega
  rw [e2]
  rw [dseq_ok _ _ _ _ _ (get_slice_append s rest (c + 1 + 2))]
  cases hv : utf8Valid s
  · rw [if_neg (by simp [hv]), if_neg (by simp [hv])]
    rfl
  · rw [if_pos (by simp [hv]), if_pos (by simp [hv])]
    rfl

/-- Claim C9 witness: the amended theorem at the one-byte body 0xFF, which
is not valid UTF-8, so the parse panics. -/
theorem c9_parse_string_utf8_witness :
    parse_string ⟨0 :: 0 :: 1 :: ([255] ++ []), 0⟩ =
      if utf8Valid [255] then .ok ([255], ⟨[], 0 + 3 + [255].length⟩) else .crash :=
  c9_parse_string_utf8 0 1 [255] [] 0 (by decide)

/-- Claim C10: `from_bytes` returns Eof for every input shorter than 22
bytes (`MAGIC.len() + 5`), whatever its contents and whatever the value
parser, before looking at the magic bytes; consequently BadMagic is only
possible for inputs of at least 22 bytes. -/
theorem c10_short_input_eof {α : Type} (p : DParse α) (b : List Nat) :
    (b.length < 22 → from_bytes p b = .err .Eof)
      ∧ (from_bytes p b = .err .BadMagic → 22 ≤ b.length) := by
  have hm : magic.length + 5 = 22 := by decide
  constructor
  · intro h
    unfold from_bytes
    rw [if_pos (by omega)]
  · intro h
    by_contra hge
    push_neg at hge
    have heof : from_bytes p b = .err .Eof := by
      unfold from_bytes
      rw [if_pos (by omega)]
    rw [heof] at h
    exact Error.noConfusion (PRes.err.inj h)

/-- Claim C10 witness: a 21-byte input whose prefix already differs from
the magic still gets Eof, and a 22-byte BadMagic input has length ≥ 22. -/
theorem c10_short_input_eof_witness :
    from_bytes de_bool (List.replicate 21 1) = .err .Eof
      ∧ 22 ≤ (255 :: List.replicate 21 0).length :=
  ⟨(c10_short_input_eof de_bool (List.replicate 21 1)).1 (by decide),
   (c10_short_input_eof de_bool (255 :: List.replicate 21 0)).2 (by decide)⟩
